import Mathlib

/-!
Verification of the Fair Pairing Question Engine (Estonian business quiz).

This file gives a shallow embedding of the game logic of `a_main/views.py`
and `a_main/models.py` and proves properties about it.

Modelling conventions:
* Django querysets over the `Company` table become pure functions over a
  `List Company` (the current store contents).
* `DecimalField` values (revenue, profit, labor_taxes) and the `FloatField`
  (employees) are modelled as `Option ℚ` (absent = SQL NULL); `Decimal`
  arithmetic is exact, so ℚ is a faithful carrier.
* `order_by('?')[:500]` followed by `random.shuffle` is modelled by an
  arbitrary sampling function `σ : List Company → List Company`; where a
  property needs it, `σ` is constrained to return only elements of its
  input list.  `random.shuffle(available_types)` is modelled by an arbitrary
  reordering function `τ`, and `random.choice([True, False])` by a `Bool`.
* The Django session dict becomes the `Session` structure; a missing
  session key with a falsy default is modelled by the field's default value.
* A Python exception escaping a view (e.g. `int(None)`) is modelled by the
  enclosing operation returning `none` without mutating the session, which
  matches the session contents the failed request would leave behind.
-/

/-! ### Game configuration constants (views.py lines 12-24) -/

def PROMO_THRESHOLD : Int := 5

def TYPE_COOLDOWN : Nat := 5

def COMPANY_COOLDOWN : Nat := 2

def MIN_DIFF_years : Nat := 7

def MIN_DIFF_employees : ℚ := 20

def MIN_DIFF_revenue : ℚ := 2000000

def MIN_DIFF_profit : ℚ := 500000

def MIN_DIFF_labor_taxes : ℚ := 100000

def QUESTION_TYPES : List String :=
  ["age", "employees", "revenue", "profit", "labor_taxes",
   "county", "ceo", "activity", "legal_form", "vat"]

/-! ### Data model (models.py `Company`) -/

/-- One row of the `Company` table, restricted to the fields the game reads.
`CharField`/`TextField` columns are `String` (Django stores `''` for blank),
nullable numeric columns are `Option ℚ`. -/
structure Company where
  id : Nat
  name : String
  registry_code : String
  legal_form : String
  registered_date : String
  county : String
  activity : String
  ceo : String
  board_members : String
  vat_number : String
  employees : Option ℚ
  revenue : Option ℚ
  profit : Option ℚ
  labor_taxes : Option ℚ
deriving DecidableEq

/-- Python `lst[-n:]` for a positive constant `n`: the last `min n (length)`
elements. -/
def takeLast {α : Type} (n : Nat) (l : List α) : List α :=
  l.drop (l.length - n)

/-- Row predicate of the queryset built by `get_complete_companies` in
views.py (lines 41-64): the chained `.exclude(field='')` /
`.filter(field__isnull=False)` calls, including the final
`.exclude(vat_number='')`. -/
def views_complete (c : Company) : Bool :=
  c.name != "" && c.registry_code != "" && c.legal_form != "" &&
  c.registered_date != "" && c.county != "" && c.activity != "" &&
  c.ceo != "" &&
  c.employees.isSome && c.revenue.isSome && c.profit.isSome &&
  c.labor_taxes.isSome &&
  c.vat_number != ""

/-- views.py `get_complete_companies()` as a function of the store. -/
def get_complete_companies (store : List Company) : List Company :=
  store.filter views_complete

/-- Row predicate of the queryset built by the classmethod
`Company.get_complete_companies` in models.py (lines 60-84): same string
exclusions plus `.exclude(board_members='')`, same null filters, and no
vat-number requirement. -/
def models_complete (c : Company) : Bool :=
  c.name != "" && c.registry_code != "" && c.legal_form != "" &&
  c.registered_date != "" && c.county != "" && c.activity != "" &&
  c.ceo != "" && c.board_members != "" &&
  c.employees.isSome && c.revenue.isSome && c.profit.isSome &&
  c.labor_taxes.isSome

/-- models.py `Company.get_complete_companies()` as a function of the store. -/
def Company.get_complete_companies (store : List Company) : List Company :=
  store.filter models_complete

/-! ### Date and county parsing (views.py lines 67-100) -/

def isLeapYear (y : Nat) : Bool :=
  (y % 4 == 0 && y % 100 != 0) || y % 400 == 0

def daysInMonth (m y : Nat) : Nat :=
  if m == 2 then (if isLeapYear y then 29 else 28)
  else if m == 4 || m == 6 || m == 9 || m == 11 then 30
  else 31

def allDigits (s : String) : Bool :=
  s.length > 0 && s.all Char.isDigit

/-- views.py `parse_date`: `datetime.strptime(date_str, '%d.%m.%Y')` with
`ValueError` (and the empty-string guard) mapped to `none`.  CPython's
strptime matches day and month as one or two digits and the year as exactly
four digits, then `datetime` validates the calendar date (year 1-9999,
month 1-12, day within the month, with leap years).  We return the
`(day, month, year)` triple instead of a datetime object. -/
def parse_date (date_str : String) : Option (Nat × Nat × Nat) :=
  if date_str == "" then none
  else
    match date_str.splitOn "." with
    | [ds, ms, ys] =>
      if allDigits ds && ds.length ≤ 2 && allDigits ms && ms.length ≤ 2 &&
         allDigits ys && ys.length == 4 then
        let d := (ds.toNat?).getD 0
        let m := (ms.toNat?).getD 0
        let y := (ys.toNat?).getD 0
        if 1 ≤ d && 1 ≤ m && m ≤ 12 && 1 ≤ y && d ≤ daysInMonth m y then
          some (d, m, y)
        else none
      else none
    | _ => none

/-- views.py `get_year_from_date`: `dt.year if dt else None`.  A parsed year
is between 1 and 9999, so Python truthiness of the datetime coincides with
the parse having succeeded. -/
def get_year_from_date (date_str : String) : Option Nat :=
  (parse_date date_str).map (fun x => x.2.2)

/-- views.py `extract_county_name` (lines 83-100). -/
def extract_county_name (county_str : String) : Option String :=
  if county_str == "" then none
  else
    let parts := (county_str.splitOn ",").map String.trim
    match parts.getLast? with
    | none => none
    | some county_part =>
      let county := ((county_part.replace " maakond" "").trim).toLower
      if county == "" then none else some county

/-! ### Cooldown tracker (views.py lines 103-106) -/

/-- views.py `get_available_question_types`. -/
def get_available_question_types (recent_types : List String) : List String :=
  let available :=
    QUESTION_TYPES.filter (fun t => !(takeLast TYPE_COOLDOWN recent_types).contains t)
  if available.isEmpty then QUESTION_TYPES else available

/-! ### Fair pair selector (views.py lines 109-255) -/

/-- The cooldown-excluded base queryset built at views.py line 113:
`get_complete_companies().exclude(id__in=recent_company_ids[-COMPANY_COOLDOWN:])`.
Note the slice keeps only the last `COMPANY_COOLDOWN` (= 2) ids, not the
last `COMPANY_COOLDOWN * 2` the session retains. -/
def base_qs (store : List Company) (recent_company_ids : List Nat) : List Company :=
  (get_complete_companies store).filter
    (fun c => !(takeLast COMPANY_COOLDOWN recent_company_ids).contains c.id)

/-- Body of the nested loops of the `age` branch (views.py lines 120-129):
what the loop does with a fixed ordered pair (c1, c2), `continue` = `none`. -/
def age_pair (c1 c2 : Company) : Option (Company × Company) :=
  match get_year_from_date c1.registered_date, get_year_from_date c2.registered_date with
  | some year1, some year2 =>
    if MIN_DIFF_years ≤ ((year1 : Int) - (year2 : Int)).natAbs then
      some (if year1 < year2 then (c1, c2) else (c2, c1))
    else none
  | _, _ => none

/-- Body of the nested loops of the four numeric branches
(views.py lines 137-144, 151-158, 165-172, 179-186), which differ only in
the field read and the minimum difference. -/
def numeric_pair (field : Company → Option ℚ) (min_diff : ℚ) (c1 c2 : Company) :
    Option (Company × Company) :=
  match field c1, field c2 with
  | some v1, some v2 =>
    if min_diff ≤ |v1 - v2| then
      some (if v2 < v1 then (c1, c2) else (c2, c1))
    else none
  | _, _ => none

/-- Body of the nested loops of the `county` branch (views.py lines 194-203). -/
def county_pair (c1 c2 : Company) : Option (Company × Company) :=
  match extract_county_name c1.county, extract_county_name c2.county with
  | some county1, some county2 =>
    if county1 ≠ county2 then some (c1, c2) else none
  | _, _ => none

/-- Body of the nested loops of the `ceo`/`activity`/`legal_form` branches
(views.py lines 211-216, 224-229, 237-242): return the pair as soon as the
field values differ. -/
def distinct_field_pair (field : Company → String) (c1 c2 : Company) :
    Option (Company × Company) :=
  if field c1 ≠ field c2 then some (c1, c2) else none

/-- Inner `for c2 in companies` loop: try `f c1 c2` on each `c2`, skipping
`c2` with the same id as `c1`, returning the first hit. -/
def pair_scan_inner (f : Company → Company → Option (Company × Company))
    (c1 : Company) : List Company → Option (Company × Company)
  | [] => none
  | c2 :: rest =>
    if c1.id = c2.id then pair_scan_inner f c1 rest
    else
      match f c1 c2 with
      | some p => some p
      | none => pair_scan_inner f c1 rest

/-- Outer `for c1 in companies` loop over the same list `all`. -/
def pair_scan_outer (f : Company → Company → Option (Company × Company))
    (all : List Company) : List Company → Option (Company × Company)
  | [] => none
  | c1 :: rest =>
    match pair_scan_inner f c1 all with
    | some p => some p
    | none => pair_scan_outer f all rest

/-- The exhaustive nested pairwise scan shared by nine branches of
`get_companies_for_question`. -/
def pair_scan (f : Company → Company → Option (Company × Company))
    (companies : List Company) : Option (Company × Company) :=
  pair_scan_outer f companies companies

/-- views.py `get_companies_for_question` (lines 109-255).  `σ` models
`order_by('?')[:500]` plus `random.shuffle` (and the plain `order_by('?')`
of the `vat` branch): an arbitrary reordering/subsampling of the candidate
list. -/
def get_companies_for_question (q_type : String) (store : List Company)
    (recent_company_ids : List Nat) (σ : List Company → List Company) :
    Option (Company × Company) :=
  if q_type = "age" then
    pair_scan age_pair
      (σ ((base_qs store recent_company_ids).filter (fun c => !(c.registered_date == ""))))
  else if q_type = "employees" then
    pair_scan (numeric_pair Company.employees MIN_DIFF_employees)
      (σ ((base_qs store recent_company_ids).filter (fun c => c.employees.isSome)))
  else if q_type = "revenue" then
    pair_scan (numeric_pair Company.revenue MIN_DIFF_revenue)
      (σ ((base_qs store recent_company_ids).filter (fun c => c.revenue.isSome)))
  else if q_type = "profit" then
    pair_scan (numeric_pair Company.profit MIN_DIFF_profit)
      (σ ((base_qs store recent_company_ids).filter (fun c => c.profit.isSome)))
  else if q_type = "labor_taxes" then
    pair_scan (numeric_pair Company.labor_taxes MIN_DIFF_labor_taxes)
      (σ ((base_qs store recent_company_ids).filter (fun c => c.labor_taxes.isSome)))
  else if q_type = "county" then
    pair_scan county_pair
      (σ ((base_qs store recent_company_ids).filter (fun c => !(c.county == ""))))
  else if q_type = "ceo" then
    pair_scan (distinct_field_pair Company.ceo)
      (σ ((base_qs store recent_company_ids).filter (fun c => !(c.ceo == ""))))
  else if q_type = "activity" then
    pair_scan (distinct_field_pair Company.activity)
      (σ ((base_qs store recent_company_ids).filter (fun c => !(c.activity == ""))))
  else if q_type = "legal_form" then
    pair_scan (distinct_field_pair Company.legal_form)
      (σ ((base_qs store recent_company_ids).filter (fun c => !(c.legal_form == ""))))
  else if q_type = "vat" then
    match (σ ((base_qs store recent_company_ids).filter (fun c => !(c.vat_number == "")))).head? with
    | none => none
    | some c1 =>
      match (σ ((base_qs store recent_company_ids).filter (fun c => c.vat_number == ""))).head? with
      | none => none
      | some c2 => some (c1, c2)
  else none

/-! ### Question text generator (views.py lines 258-325) -/

/-- Python `int(x)` on an exact rational: truncation toward zero. -/
def pyInt (q : ℚ) : Int :=
  Int.tdiv q.num q.den

/-- Round `num / den` (with `den > 0`) to the nearest integer, ties to even:
the rounding CPython's float formatting applies.  The float division
`value / 1000000` is modelled as exact rational division. -/
def round_half_even (num den : Int) : Int :=
  let q := Int.fdiv num den
  let r := num - q * den
  if 2 * r < den then q
  else if den < 2 * r then q + 1
  else if q % 2 = 0 then q else q + 1

/-- Python `f"{v / den:.1f}"` for nonnegative `v`: one digit after the
decimal point. -/
def fmt_one_decimal (v den : Int) : String :=
  let n := round_half_even (10 * v) den
  toString (n / 10) ++ "." ++ toString (n % 10)

/-- Python `f"{v / den:.0f}"`: no digits after the decimal point. -/
def fmt_zero_decimal (v den : Int) : String :=
  toString (round_half_even v den)

/-- The numeric magnitude formatting rule of the specification, shared by
the revenue / profit / labor-taxes branches: millions to one decimal,
thousands to zero decimals, otherwise the raw integer. -/
def format_magnitude (v : Int) : String :=
  if 1000000 ≤ v then fmt_one_decimal v 1000000 ++ " miljonit"
  else if 1000 ≤ v then fmt_zero_decimal v 1000 ++ " tuhat"
  else toString v

/-- views.py `generate_question_text` (lines 258-325).  Returns `none` when
the source would raise `TypeError` (`int(None)` on a missing numeric
field); callers only pass companies produced by the selector, for which the
needed field is present. -/
def generate_question_text (q_type : String) (c : Company) : Option String :=
  if q_type = "age" then
    match get_year_from_date c.registered_date with
    | some year => some ("Milline ettevõte asutati aastal " ++ toString year ++ "?")
    | none => some "Milline ettevõte on vanem?"
  else if q_type = "employees" then
    match c.employees with
    | some e => some ("Millisel ettevõttel on " ++ toString (pyInt e) ++ " töötajat?")
    | none => none
  else if q_type = "revenue" then
    match c.revenue with
    | some r =>
      let revenue := pyInt r
      let revenue_str :=
        if 1000000 ≤ revenue then fmt_one_decimal revenue 1000000 ++ " miljonit"
        else if 1000 ≤ revenue then fmt_zero_decimal revenue 1000 ++ " tuhat"
        else toString revenue
      some ("Millisel ettevõttel on käive " ++ revenue_str ++ " eurot?")
    | none => none
  else if q_type = "profit" then
    match c.profit with
    | some p =>
      let profit := pyInt p
      let profit_str :=
        if 1000000 ≤ profit then fmt_one_decimal profit 1000000 ++ " miljonit"
        else if 1000 ≤ profit then fmt_zero_decimal profit 1000 ++ " tuhat"
        else toString profit
      some ("Millisel ettevõttel on kasum " ++ profit_str ++ " eurot?")
    | none => none
  else if q_type = "labor_taxes" then
    match c.labor_taxes with
    | some t =>
      let labor_taxes := pyInt t
      let taxes_str :=
        if 1000000 ≤ labor_taxes then fmt_one_decimal labor_taxes 1000000 ++ " miljonit"
        else if 1000 ≤ labor_taxes then fmt_zero_decimal labor_taxes 1000 ++ " tuhat"
        else toString labor_taxes
      some ("Millisel ettevõttel on tööjõukulud " ++ taxes_str ++ " eurot?")
    | none => none
  else if q_type = "county" then
    let county_display :=
      match extract_county_name c.county with
      | some county_name => county_name.capitalize ++ " maakond"
      | none =>
        if c.county != "" then (((c.county.splitOn ",").getLast?.getD "").trim)
        else "?"
    some ("Milline ettevõte asub " ++ county_display ++ "?")
  else if q_type = "ceo" then
    some ("Millist ettevõtet juhib " ++ c.ceo ++ "?")
  else if q_type = "activity" then
    let activity :=
      if 60 < c.activity.length then (c.activity.take 60) ++ "..." else c.activity
    some ("Milline ettevõte tegeleb: " ++ activity ++ "?")
  else if q_type = "legal_form" then
    some ("Milline ettevõte on " ++ c.legal_form ++ "?")
  else if q_type = "vat" then
    some ("Millisel ettevõttel on KMKR number " ++ c.vat_number ++ "?")
  else
    some "Vali õige ettevõte"

/-! ### Session state machine (views.py lines 328-493) -/

/-- The dict stored under `session['current_question']` (views.py lines
363-370). -/
structure CurrentQuestion where
  qtype : String
  text : String
  company_a_id : Nat
  company_b_id : Nat
  correct_position : String
  correct_company_id : Nat
deriving DecidableEq

/-- The dict stored under `session['feedback']` (views.py lines 421-433). -/
structure Feedback where
  correct : Bool
  selected : String
  correct_position : String
deriving DecidableEq

/-- The game-relevant session keys.  A key that may be absent with a falsy
default (`current_question`, `feedback`, `promo_shown`, `show_promo`) is
modelled by its falsy value. -/
structure Session where
  score : Int
  recent_types : List String
  recent_company_ids : List Nat
  current_question : Option CurrentQuestion
  feedback : Option Feedback
  promo_shown : Bool
  show_promo : Bool
deriving DecidableEq

/-- The fresh session installed by `index` on first contact
(views.py lines 386-392). -/
def init_session : Session :=
  { score := 0, recent_types := [], recent_company_ids := [],
    current_question := none, feedback := none,
    promo_shown := false, show_promo := false }

/-- The `for q_type in available_types` loop of `generate_question`
(views.py lines 338-339): first question type whose selector finds a pair. -/
def gen_try_types (store : List Company) (σ : List Company → List Company)
    (recent_company_ids : List Nat) :
    List String → Option (String × Company × Company)
  | [] => none
  | q_type :: rest =>
    match get_companies_for_question q_type store recent_company_ids σ with
    | some (correct_company, wrong_company) => some (q_type, correct_company, wrong_company)
    | none => gen_try_types store σ recent_company_ids rest

/-- views.py `generate_question` (lines 328-379).  `τ` models
`random.shuffle(available_types)`, `pos_choice` models
`random.choice([True, False])` (true = correct company on side a).
Returns the updated session together with the rendered payload
(question text, company_a id, company_b id), or `none` when every type
fails (or text rendering would raise), leaving the session unchanged. -/
def generate_question (store : List Company) (σ : List Company → List Company)
    (τ : List String → List String) (pos_choice : Bool) (s : Session) :
    Session × Option (String × Nat × Nat) :=
  match gen_try_types store σ s.recent_company_ids
      (τ (get_available_question_types s.recent_types)) with
  | none => (s, none)
  | some (q_type, correct_company, wrong_company) =>
    match generate_question_text q_type correct_company with
    | none => (s, none)
    | some question_text =>
      let company_a := if pos_choice then correct_company else wrong_company
      let company_b := if pos_choice then wrong_company else correct_company
      let correct_position := if pos_choice then "a" else "b"
      let recent_types := s.recent_types ++ [q_type]
      let recent_company_ids := s.recent_company_ids ++ [correct_company.id, wrong_company.id]
      ({ s with
          recent_types := takeLast TYPE_COOLDOWN recent_types,
          recent_company_ids := takeLast (COMPANY_COOLDOWN * 2) recent_company_ids,
          current_question := some
            { qtype := q_type, text := question_text,
              company_a_id := company_a.id, company_b_id := company_b.id,
              correct_position := correct_position,
              correct_company_id := correct_company.id } },
        some (question_text, company_a.id, company_b.id))

/-- One HTTP request to the game view: the method, the POST field
`answer`, and the query flag `continue=1`. -/
structure Request where
  is_post : Bool
  answer : Option String
  continue1 : Bool

/-- The template context assembled by `index` (views.py lines 403-408 and
later assignments); `none` for a key never set.  `company_a`/`company_b`
hold the company ids handed to the template. -/
structure Ctx where
  score : Int
  points_to_win : Int
  feedback : Option Feedback
  game_over : Bool
  question : Option String
  company_a : Option Nat
  company_b : Option Nat
  show_promo : Bool
  error : Bool
deriving DecidableEq

/-- `Company.objects.get(id=i)` with `DoesNotExist` as `none`. -/
def find_company (store : List Company) (i : Nat) : Option Company :=
  store.find? (fun c => c.id == i)

/-- The POST-handling block of `index` (views.py lines 410-441): evaluate a
submitted answer.  Returns the updated session and whether the block took
effect (true = the source returns `redirect('index')`).  Python truthiness
of `answer` makes a missing or empty string submission fall through with no
state change, but any other string is graded against `correct_position`. -/
def handle_answer_post (s : Session) (answer : Option String) : Session × Bool :=
  match s.current_question, answer with
  | some current_q, some a =>
    if a ≠ "" then
      let correct := a == current_q.correct_position
      let s1 : Session :=
        { s with
            score := if correct then s.score + 1 else s.score - 1,
            feedback := some
              { correct := correct, selected := a,
                correct_position := current_q.correct_position } }
      let s2 : Session :=
        if PROMO_THRESHOLD ≤ s1.score ∧ s1.promo_shown = false then
          { s1 with show_promo := true, promo_shown := true }
        else s1
      (s2, true)
    else (s, false)
  | _, _ => (s, false)

/-- The tail of `index` after the POST block (views.py lines 443-480):
either display pending feedback (and consume the one-shot promo signal and
the feedback itself), or generate a new question.  `feedback` is the local
variable read at the top of the view. -/
def index_rest (store : List Company) (σ : List Company → List Company)
    (τ : List String → List String) (pos_choice : Bool) (s : Session)
    (feedback : Option Feedback) (ctx0 : Ctx) : Session × Option Ctx :=
  match feedback with
  | some _ =>
    let ctx1 :=
      match s.current_question with
      | some current_q =>
        let c := { ctx0 with question := some current_q.text }
        match find_company store current_q.company_a_id,
              find_company store current_q.company_b_id with
        | some ca, some cb => { c with company_a := some ca.id, company_b := some cb.id }
        | _, _ => c
      | none => ctx0
    let ctx2 := if s.show_promo then { ctx1 with show_promo := true } else ctx1
    let s1 := if s.show_promo then { s with show_promo := false } else s
    let ctx3 := { ctx2 with score := s1.score }
    ({ s1 with feedback := none }, some ctx3)
  | none =>
    match generate_question store σ τ pos_choice s with
    | (s1, some (text, ca, cb)) =>
      (s1, some { ctx0 with question := some text, company_a := some ca, company_b := some cb })
    | (s1, none) => (s1, some { ctx0 with error := true })

/-- views.py `index` (lines 382-480) on an already-initialized session.
Returns the new session and the rendered context, or `none` for the
`redirect('index')` a handled POST answers with. -/
def index (store : List Company) (σ : List Company → List Company)
    (τ : List String → List String) (pos_choice : Bool) (s : Session)
    (req : Request) : Session × Option Ctx :=
  let s := if req.continue1 then { s with feedback := none } else s
  let feedback := s.feedback
  let ctx0 : Ctx :=
    { score := s.score, points_to_win := PROMO_THRESHOLD, feedback := feedback,
      game_over := false, question := none, company_a := none, company_b := none,
      show_promo := false, error := false }
  if req.is_post then
    match handle_answer_post s req.answer with
    | (s1, true) => (s1, none)
    | (s1, false) => index_rest store σ τ pos_choice s1 feedback ctx0
  else index_rest store σ τ pos_choice s feedback ctx0

/-- views.py `reset_game` (lines 483-493), the session mutation part. -/
def reset_game (s : Session) : Session :=
  { s with
      score := 0
      recent_types := []
      recent_company_ids := []
      current_question := none
      feedback := none
      promo_shown := false
      show_promo := false }

/-- A plain GET of the game view with no query flags. -/
def get_request : Request :=
  { is_post := false, answer := none, continue1 := false }

/-- One full answer interaction as a player experiences it: the POST that
submits the answer (which redirects) followed by the GET that renders the
feedback page.  Returns the session afterwards and whether that rendered
page carries the promo reveal. -/
def answer_round (store : List Company) (σ : List Company → List Company)
    (τ : List String → List String) (pos_choice : Bool) (s : Session)
    (a : String) : Session × Bool :=
  let s1 := (index store σ τ pos_choice s
      { is_post := true, answer := some a, continue1 := false }).1
  match index store σ τ pos_choice s1 get_request with
  | (s2, some ctx) => (s2, ctx.show_promo)
  | (s2, none) => (s2, false)

/-- Iterated `answer_round`: final session plus the per-round promo-reveal
bits, in order. -/
def run_rounds (store : List Company) (σ : List Company → List Company)
    (τ : List String → List String) (pos_choice : Bool) (s : Session) :
    List String → Session × List Bool
  | [] => (s, [])
  | a :: rest =>
    let r1 := answer_round store σ τ pos_choice s a
    let r2 := run_rounds store σ τ pos_choice r1.1 rest
    (r2.1, r1.2 :: r2.2)

/-- The running score after each submission of `answers`, starting from
score `sc`, when the pending question's correct position is `cp`:
the pure arithmetic shadow of the score updates of the POST block. -/
def scores (sc : Int) (cp : String) : List String → List Int
  | [] => []
  | a :: rest =>
    let sc1 := if a = cp then sc + 1 else sc - 1
    sc1 :: scores sc1 cp rest

/-! ### The specification's fairness predicates (spec.md section 4.3)

`fairness_spec` is written from the specification's table, not from the
source: each question type's fairness predicate over the returned
`(winner, loser)` pair, with the winner rule folded in where the table
names a winner. -/

def fairness_spec (q_type : String) (winner loser : Company) : Prop :=
  if q_type = "age" then
    ∃ yw yl, get_year_from_date winner.registered_date = some yw ∧
      get_year_from_date loser.registered_date = some yl ∧
      MIN_DIFF_years ≤ ((yw : Int) - (yl : Int)).natAbs ∧ yw < yl
  else if q_type = "employees" then
    ∃ vw vl, winner.employees = some vw ∧ loser.employees = some vl ∧
      MIN_DIFF_employees ≤ |vw - vl| ∧ vl < vw
  else if q_type = "revenue" then
    ∃ vw vl, winner.revenue = some vw ∧ loser.revenue = some vl ∧
      MIN_DIFF_revenue ≤ |vw - vl| ∧ vl < vw
  else if q_type = "profit" then
    ∃ vw vl, winner.profit = some vw ∧ loser.profit = some vl ∧
      MIN_DIFF_profit ≤ |vw - vl| ∧ vl < vw
  else if q_type = "labor_taxes" then
    ∃ vw vl, winner.labor_taxes = some vw ∧ loser.labor_taxes = some vl ∧
      MIN_DIFF_labor_taxes ≤ |vw - vl| ∧ vl < vw
  else if q_type = "county" then
    ∃ kw kl, extract_county_name winner.county = some kw ∧
      extract_county_name loser.county = some kl ∧ kw ≠ kl
  else if q_type = "ceo" then
    winner.ceo ≠ "" ∧ loser.ceo ≠ "" ∧ winner.ceo ≠ loser.ceo
  else if q_type = "activity" then
    winner.activity ≠ "" ∧ loser.activity ≠ "" ∧ winner.activity ≠ loser.activity
  else if q_type = "legal_form" then
    winner.legal_form ≠ "" ∧ loser.legal_form ≠ "" ∧ winner.legal_form ≠ loser.legal_form
  else if q_type = "vat" then
    winner.vat_number ≠ "" ∧ loser.vat_number = ""
  else True

/-! ### Concrete stores and sessions used to instantiate the theorems -/

/-- A complete company (satisfies both completeness filters), id 1,
revenue 5 000 000. -/
def c2_one : Company :=
  { id := 1, name := "Esimene OÜ", registry_code := "10000001",
    legal_form := "OÜ", registered_date := "01.01.2000",
    county := "Tallinn, Harju maakond", activity := "Jaekaubandus",
    ceo := "Mari Mets", board_members := "Mari Mets",
    vat_number := "EE100000001", employees := some 50,
    revenue := some 5000000, profit := some 0, labor_taxes := some 0 }

/-- A complete company, id 5, revenue 100 000. -/
def c2_five : Company :=
  { id := 5, name := "Viies OÜ", registry_code := "10000005",
    legal_form := "OÜ", registered_date := "01.01.2000",
    county := "Tallinn, Harju maakond", activity := "Jaekaubandus",
    ceo := "Mari Mets", board_members := "Mari Mets",
    vat_number := "EE100000005", employees := some 50,
    revenue := some 100000, profit := some 0, labor_taxes := some 0 }

/-- A complete company, id 6, revenue 2 900 000. -/
def c2_six : Company :=
  { id := 6, name := "Kuues OÜ", registry_code := "10000006",
    legal_form := "OÜ", registered_date := "01.01.2000",
    county := "Tallinn, Harju maakond", activity := "Jaekaubandus",
    ceo := "Mari Mets", board_members := "Mari Mets",
    vat_number := "EE100000006", employees := some 50,
    revenue := some 2900000, profit := some 0, labor_taxes := some 0 }

def c2_store : List Company := [c2_one, c2_five, c2_six]

/-- A session whose last two questions used companies 1, 2, 3, 4 and whose
recent types leave `revenue` as the next available type. -/
def c2_sess : Session :=
  { score := 0
    recent_types := ["age", "employees", "profit", "labor_taxes", "county"]
    recent_company_ids := [1, 2, 3, 4]
    current_question := none
    feedback := none
    promo_shown := false
    show_promo := false }

/-- A complete company, id 11, with its own CEO. -/
def c1_ceo_a : Company :=
  { id := 11, name := "Alfa OÜ", registry_code := "10000011",
    legal_form := "OÜ", registered_date := "01.01.2000",
    county := "Tallinn, Harju maakond", activity := "Jaekaubandus",
    ceo := "Mari Mets", board_members := "Mari Mets",
    vat_number := "EE100000011", employees := some 50,
    revenue := some 100000, profit := some 0, labor_taxes := some 0 }

/-- A complete company, id 12, with a different CEO. -/
def c1_ceo_b : Company :=
  { id := 12, name := "Beeta OÜ", registry_code := "10000012",
    legal_form := "OÜ", registered_date := "01.01.2000",
    county := "Tallinn, Harju maakond", activity := "Jaekaubandus",
    ceo := "Jaan Kask", board_members := "Jaan Kask",
    vat_number := "EE100000012", employees := some 50,
    revenue := some 100000, profit := some 0, labor_taxes := some 0 }

def c1_store : List Company := [c1_ceo_a, c1_ceo_b]

/-- A pending question whose correct side is `a`. -/
def qa : CurrentQuestion :=
  { qtype := "revenue", text := "Millisel ettevõttel on käive 5.0 miljonit eurot?",
    company_a_id := 1, company_b_id := 5,
    correct_position := "a", correct_company_id := 1 }

/-- A session awaiting an answer to `qa`, score 0. -/
def c3_sess : Session :=
  { score := 0
    recent_types := ["revenue"]
    recent_company_ids := [1, 5]
    current_question := some qa
    feedback := none
    promo_shown := false
    show_promo := false }

/-- A session in the feedback-pending state. -/
def c5_fb : Feedback :=
  { correct := true, selected := "a", correct_position := "a" }

def c5_sess : Session :=
  { score := 1
    recent_types := ["revenue"]
    recent_company_ids := [1, 5]
    current_question := some qa
    feedback := some c5_fb
    promo_shown := false
    show_promo := false }

/-- The answer list of five correct submissions. -/
def five_correct : List String := ["a", "a", "a", "a", "a"]

/-- A complete company with revenue 3 000 000, used for the formatting
witness. -/
def c8_company : Company :=
  { id := 21, name := "Vorm OÜ", registry_code := "10000021",
    legal_form := "OÜ", registered_date := "01.01.2000",
    county := "Tallinn, Harju maakond", activity := "Jaekaubandus",
    ceo := "Mari Mets", board_members := "Mari Mets",
    vat_number := "EE100000021", employees := some 50,
    revenue := some 3000000, profit := some 500, labor_taxes := some 250000 }

/-- A record with every field filled except the vat number: complete for
the persistence-layer filter, not for the game-view filter. -/
def c9_novat : Company :=
  { id := 31, name := "Ilma KMKRta OÜ", registry_code := "10000031",
    legal_form := "OÜ", registered_date := "01.01.2000",
    county := "Tallinn, Harju maakond", activity := "Jaekaubandus",
    ceo := "Mari Mets", board_members := "Mari Mets",
    vat_number := "", employees := some 50,
    revenue := some 100000, profit := some 0, labor_taxes := some 0 }

/-- A fully-filled record including the vat number. -/
def c9_vat : Company :=
  { id := 32, name := "KMKRga OÜ", registry_code := "10000032",
    legal_form := "OÜ", registered_date := "01.01.2000",
    county := "Tallinn, Harju maakond", activity := "Jaekaubandus",
    ceo := "Mari Mets", board_members := "Mari Mets",
    vat_number := "EE100000032", employees := some 50,
    revenue := some 100000, profit := some 0, labor_taxes := some 0 }

/-! ### Helper lemmas -/

theorem head?_some_mem {α : Type} {l : List α} {a : α} (h : l.head? = some a) :
    a ∈ l := by
  cases l with
  | nil => simp at h
  | cons x xs =>
    simp only [List.head?_cons, Option.some.injEq] at h
    exact h ▸ List.mem_cons_self x xs

theorem mem_base_qs_complete {store : List Company} {recent : List Nat} {c : Company}
    (h : c ∈ base_qs store recent) : views_complete c = true := by
  unfold base_qs at h
  exact (List.mem_filter.mp (List.mem_filter.mp h).1).2

/-! ### C7: the cooldown tracker never blocks every type -/

/-- C7: `get_available_question_types` always returns a non-empty list; when
some type is absent from the last TYPE_COOLDOWN history entries the result
is exactly the types not present there (in QUESTION_TYPES order), and
otherwise it is the full ten-type list. -/
theorem C7_available_types (recent_types : List String) :
    get_available_question_types recent_types ≠ [] ∧
    (QUESTION_TYPES.filter
        (fun t => !(takeLast TYPE_COOLDOWN recent_types).contains t) ≠ [] →
      get_available_question_types recent_types =
        QUESTION_TYPES.filter
          (fun t => !(takeLast TYPE_COOLDOWN recent_types).contains t) ∧
      (∀ t, t ∈ get_available_question_types recent_types ↔
        (t ∈ QUESTION_TYPES ∧ t ∉ takeLast TYPE_COOLDOWN recent_types))) ∧
    (QUESTION_TYPES.filter
        (fun t => !(takeLast TYPE_COOLDOWN recent_types).contains t) = [] →
      get_available_question_types recent_types = QUESTION_TYPES) ∧
    QUESTION_TYPES.length = 10 := by
  have hdef : get_available_question_types recent_types =
      if (QUESTION_TYPES.filter
          (fun t => !(takeLast TYPE_COOLDOWN recent_types).contains t)).isEmpty
      then QUESTION_TYPES
      else QUESTION_TYPES.filter
          (fun t => !(takeLast TYPE_COOLDOWN recent_types).contains t) := rfl
  by_cases h : QUESTION_TYPES.filter
      (fun t => !(takeLast TYPE_COOLDOWN recent_types).contains t) = []
  · refine ⟨?_, fun hne => absurd h hne, fun _ => ?_, by decide⟩
    · rw [hdef, h]; decide
    · rw [hdef, h]; decide
  · have he : (QUESTION_TYPES.filter
        (fun t => !(takeLast TYPE_COOLDOWN recent_types).contains t)).isEmpty = false := by
      simpa [List.isEmpty_iff] using h
    refine ⟨?_, fun _ => ⟨?_, fun t => ?_⟩, fun he2 => absurd he2 h, by decide⟩
    · rw [hdef, he]; simpa using h
    · rw [hdef, he]; simp
    · rw [hdef, he]
      simp [List.mem_filter]

/-- C7 witness: with history `["age"]`, the type `employees` is available. -/
theorem C7_witness :
    (QUESTION_TYPES.filter
        (fun t => !(takeLast TYPE_COOLDOWN ["age"]).contains t) ≠ []) ∧
    "employees" ∈ get_available_question_types ["age"] :=
  ⟨by decide,
    ((C7_available_types ["age"]).2.1 (by decide)).2 "employees" |>.mpr (by decide)⟩

/-! ### C10: reset_game restores the initial state -/

/-- C10: from any session state, `reset_game` yields score 0, empty type and
entity histories, no current question, no feedback, and a cleared
promo-shown flag. -/
theorem C10_reset (s : Session) :
    (reset_game s).score = 0 ∧ (reset_game s).recent_types = [] ∧
    (reset_game s).recent_company_ids = [] ∧
    (reset_game s).current_question = none ∧
    (reset_game s).feedback = none ∧
    (reset_game s).promo_shown = false :=
  ⟨rfl, rfl, rfl, rfl, rfl, rfl⟩

/-! ### C9: the two completeness filters -/

/-- C9 is false as stated: a record with an empty vat number but every other
field filled (including board members) is accepted by the persistence-layer
filter yet rejected by the game-view filter, so the persistence-layer
filter does not require a non-empty vat number. -/
theorem C9_counterexample :
    models_complete c9_novat = true ∧ views_complete c9_novat = false ∧
    c9_novat.vat_number = "" ∧ c9_novat.board_members ≠ "" := by
  decide

/-- C9 amended: restricted to records with a non-empty vat number, the
persistence-layer completeness filter accepts exactly the records the
game-view filter accepts that also have non-empty board members; on records
with an empty vat number the two differ (see the counterexample), because
only the game-view filter requires the vat number. -/
theorem C9_amended_refinement (c : Company) (h : c.vat_number ≠ "") :
    models_complete c = true ↔ (views_complete c = true ∧ c.board_members ≠ "") := by
  unfold models_complete views_complete
  simp only [Bool.and_eq_true, bne_iff_ne, ne_eq]
  tauto

/-- C9 witness: the amended equivalence at a record with a vat number. -/
theorem C9_witness :
    c9_vat.vat_number ≠ "" ∧
    (models_complete c9_vat = true ↔
      (views_complete c9_vat = true ∧ c9_vat.board_members ≠ "")) :=
  ⟨by decide, C9_amended_refinement c9_vat (by decide)⟩

/-! ### C6: the vat question type can never be generated -/

/-- C6: for every store, recent-id list and sampling function (returning
only elements of its input), the selector returns `none` for the `vat`
type: the base queryset contains only complete companies, whose vat number
is non-empty, so the required empty-vat side never exists. -/
theorem C6_vat_unsatisfiable (store : List Company) (recent_company_ids : List Nat)
    (σ : List Company → List Company) (hσ : ∀ l c, c ∈ σ l → c ∈ l) :
    get_companies_for_question "vat" store recent_company_ids σ = none := by
  unfold get_companies_for_question
  simp only [reduceIte]
  have hf : (base_qs store recent_company_ids).filter
      (fun c => c.vat_number == "") = [] := by
    rw [List.filter_eq_nil_iff]
    intro c hc
    have hv := mem_base_qs_complete hc
    unfold views_complete at hv
    simp only [Bool.and_eq_true, bne_iff_ne, ne_eq] at hv
    simp [hv.2]
  have hσnil : σ ((base_qs store recent_company_ids).filter
      (fun c => c.vat_number == "")) = [] := by
    rw [hf]
    exact List.eq_nil_iff_forall_not_mem.mpr (fun c hc => by simpa using hσ [] c hc)
  cases h1 : (σ ((base_qs store recent_company_ids).filter
      (fun c => !(c.vat_number == "")))).head? with
  | none => rfl
  | some c1 => rw [hσnil]; rfl

/-- C6 witness: the vat selector returns `none` on a concrete store of three
complete companies with the identity sampling function. -/
theorem C6_witness :
    (∀ (l : List Company) (c : Company), c ∈ (id l) → c ∈ l) ∧
    get_companies_for_question "vat" c2_store [] id = none :=
  ⟨fun _ _ h => h, C6_vat_unsatisfiable c2_store [] id (fun _ _ h => h)⟩

/-! ### Soundness of the pairwise scan and of each branch body -/

theorem pair_scan_inner_sound {f : Company → Company → Option (Company × Company)}
    {c1 : Company} {l : List Company} {p : Company × Company}
    (h : pair_scan_inner f c1 l = some p) :
    ∃ c2 ∈ l, c1.id ≠ c2.id ∧ f c1 c2 = some p := by
  induction l with
  | nil => simp [pair_scan_inner] at h
  | cons c2 rest ih =>
    rw [pair_scan_inner] at h
    split at h
    next hid =>
      obtain ⟨c', hm, hne, hf⟩ := ih h
      exact ⟨c', List.mem_cons_of_mem _ hm, hne, hf⟩
    next hid =>
      split at h
      next q hq =>
        exact ⟨c2, List.mem_cons_self c2 rest, hid, hq.trans h⟩
      next hq =>
        obtain ⟨c', hm, hne, hf⟩ := ih h
        exact ⟨c', List.mem_cons_of_mem _ hm, hne, hf⟩

theorem pair_scan_outer_sound {f : Company → Company → Option (Company × Company)}
    {all cur : List Company} {p : Company × Company}
    (h : pair_scan_outer f all cur = some p) :
    ∃ c1 ∈ cur, ∃ c2 ∈ all, c1.id ≠ c2.id ∧ f c1 c2 = some p := by
  induction cur with
  | nil => simp [pair_scan_outer] at h
  | cons c1 rest ih =>
    rw [pair_scan_outer] at h
    split at h
    next q hq =>
      injection h with h1
      subst h1
      obtain ⟨c2, hm2, hne, hf⟩ := pair_scan_inner_sound hq
      exact ⟨c1, List.mem_cons_self c1 rest, c2, hm2, hne, hf⟩
    next hq =>
      obtain ⟨c1', hm1, c2, hm2, hne, hf⟩ := ih h
      exact ⟨c1', List.mem_cons_of_mem _ hm1, c2, hm2, hne, hf⟩

theorem pair_scan_sound {f : Company → Company → Option (Company × Company)}
    {companies : List Company} {p : Company × Company}
    (h : pair_scan f companies = some p) :
    ∃ c1 ∈ companies, ∃ c2 ∈ companies, c1.id ≠ c2.id ∧ f c1 c2 = some p :=
  pair_scan_outer_sound h

theorem age_pair_sound {c1 c2 w l : Company} (h : age_pair c1 c2 = some (w, l)) :
    ∃ yw yl, get_year_from_date w.registered_date = some yw ∧
      get_year_from_date l.registered_date = some yl ∧
      MIN_DIFF_years ≤ ((yw : Int) - (yl : Int)).natAbs ∧ yw < yl := by
  unfold age_pair at h
  split at h
  next year1 year2 hy1 hy2 =>
    split at h
    next hd =>
      rw [Option.some_inj] at h
      split at h
      next hlt =>
        simp only [Prod.mk.injEq] at h
        obtain ⟨rfl, rfl⟩ := h
        exact ⟨year1, year2, hy1, hy2, hd, hlt⟩
      next hlt =>
        simp only [Prod.mk.injEq] at h
        obtain ⟨rfl, rfl⟩ := h
        refine ⟨year2, year1, hy2, hy1, ?_, ?_⟩
        · unfold MIN_DIFF_years at hd ⊢
          omega
        · unfold MIN_DIFF_years at hd
          omega
    next => exact absurd h (by simp)
  next => exact absurd h (by simp)

theorem numeric_pair_sound {field : Company → Option ℚ} {min_diff : ℚ}
    (hpos : 0 < min_diff) {c1 c2 w l : Company}
    (h : numeric_pair field min_diff c1 c2 = some (w, l)) :
    ∃ vw vl, field w = some vw ∧ field l = some vl ∧
      min_diff ≤ |vw - vl| ∧ vl < vw := by
  unfold numeric_pair at h
  split at h
  next v1 v2 hv1 hv2 =>
    split at h
    next hd =>
      rw [Option.some_inj] at h
      have hne : v1 ≠ v2 := by
        intro he
        rw [he, sub_self, abs_zero] at hd
        exact absurd (lt_of_lt_of_le hpos hd) (lt_irrefl 0)
      split at h
      next hlt =>
        simp only [Prod.mk.injEq] at h
        obtain ⟨rfl, rfl⟩ := h
        exact ⟨v1, v2, hv1, hv2, hd, hlt⟩
      next hlt =>
        simp only [Prod.mk.injEq] at h
        obtain ⟨rfl, rfl⟩ := h
        refine ⟨v2, v1, hv2, hv1, by rwa [abs_sub_comm], ?_⟩
        exact lt_of_le_of_ne (not_lt.mp hlt) hne
    next => exact absurd h (by simp)
  next => exact absurd h (by simp)

theorem county_pair_sound {c1 c2 w l : Company}
    (h : county_pair c1 c2 = some (w, l)) :
    ∃ kw kl, extract_county_name w.county = some kw ∧
      extract_county_name l.county = some kl ∧ kw ≠ kl := by
  unfold county_pair at h
  split at h
  next county1 county2 hk1 hk2 =>
    split at h
    next hne =>
      rw [Option.some_inj] at h
      simp only [Prod.mk.injEq] at h
      obtain ⟨rfl, rfl⟩ := h
      exact ⟨county1, county2, hk1, hk2, hne⟩
    next => exact absurd h (by simp)
  next => exact absurd h (by simp)

theorem distinct_field_pair_sound {field : Company → String} {c1 c2 w l : Company}
    (h : distinct_field_pair field c1 c2 = some (w, l)) :
    w = c1 ∧ l = c2 ∧ field w ≠ field l := by
  unfold distinct_field_pair at h
  split at h
  next hne =>
    rw [Option.some_inj] at h
    simp only [Prod.mk.injEq] at h
    obtain ⟨rfl, rfl⟩ := h
    exact ⟨rfl, rfl, hne⟩
  next => exact absurd h (by simp)

theorem mem_sample_filter {σ : List Company → List Company}
    (hσ : ∀ l c, c ∈ σ l → c ∈ l) {p : Company → Bool} {base : List Company}
    {c : Company} (h : c ∈ σ (base.filter p)) : p c = true :=
  (List.mem_filter.mp (hσ _ _ h)).2

/-! ### C1: every returned pair satisfies its type's fairness predicate -/

/-- C1: for every question type and every pair returned by
`get_companies_for_question` (with a sampler that only reorders/subsamples
its input), the specification's fairness predicate for that type holds of
the pair, with the first component the winner under the type's winner rule;
in particular for `revenue` both revenues are present, differ by at least
2 000 000 and the winner's is larger, and for `age` both dates parse, the
years differ by at least 7 and the winner's year is earlier. -/
theorem C1_selector_fairness (q_type : String) (store : List Company)
    (recent_company_ids : List Nat) (σ : List Company → List Company)
    (hσ : ∀ l c, c ∈ σ l → c ∈ l) (w l : Company)
    (h : get_companies_for_question q_type store recent_company_ids σ = some (w, l)) :
    fairness_spec q_type w l := by
  unfold get_companies_for_question at h
  by_cases hq1 : q_type = "age"
  · subst hq1
    rw [if_pos rfl] at h
    simp only [fairness_spec, reduceIte]
    obtain ⟨c1, hm1, c2, hm2, hne, hf⟩ := pair_scan_sound h
    exact age_pair_sound hf
  rw [if_neg hq1] at h
  by_cases hq2 : q_type = "employees"
  · subst hq2
    rw [if_pos rfl] at h
    simp only [fairness_spec, reduceIte]
    obtain ⟨c1, hm1, c2, hm2, hne, hf⟩ := pair_scan_sound h
    exact numeric_pair_sound (by norm_num [MIN_DIFF_employees]) hf
  rw [if_neg hq2] at h
  by_cases hq3 : q_type = "revenue"
  · subst hq3
    rw [if_pos rfl] at h
    simp only [fairness_spec, reduceIte]
    obtain ⟨c1, hm1, c2, hm2, hne, hf⟩ := pair_scan_sound h
    exact numeric_pair_sound (by norm_num [MIN_DIFF_revenue]) hf
  rw [if_neg hq3] at h
  by_cases hq4 : q_type = "profit"
  · subst hq4
    rw [if_pos rfl] at h
    simp only [fairness_spec, reduceIte]
    obtain ⟨c1, hm1, c2, hm2, hne, hf⟩ := pair_scan_sound h
    exact numeric_pair_sound (by norm_num [MIN_DIFF_profit]) hf
  rw [if_neg hq4] at h
  by_cases hq5 : q_type = "labor_taxes"
  · subst hq5
    rw [if_pos rfl] at h
    simp only [fairness_spec, reduceIte]
    obtain ⟨c1, hm1, c2, hm2, hne, hf⟩ := pair_scan_sound h
    exact numeric_pair_sound (by norm_num [MIN_DIFF_labor_taxes]) hf
  rw [if_neg hq5] at h
  by_cases hq6 : q_type = "county"
  · subst hq6
    rw [if_pos rfl] at h
    simp only [fairness_spec, reduceIte]
    obtain ⟨c1, hm1, c2, hm2, hne, hf⟩ := pair_scan_sound h
    exact county_pair_sound hf
  rw [if_neg hq6] at h
  by_cases hq7 : q_type = "ceo"
  · subst hq7
    rw [if_pos rfl] at h
    simp only [fairness_spec, reduceIte]
    obtain ⟨c1, hm1, c2, hm2, hne, hf⟩ := pair_scan_sound h
    obtain ⟨rfl, rfl, hfne⟩ := distinct_field_pair_sound hf
    refine ⟨?_, ?_, hfne⟩
    · simpa using mem_sample_filter hσ hm1
    · simpa using mem_sample_filter hσ hm2
  rw [if_neg hq7] at h
  by_cases hq8 : q_type = "activity"
  · subst hq8
    rw [if_pos rfl] at h
    simp only [fairness_spec, reduceIte]
    obtain ⟨c1, hm1, c2, hm2, hne, hf⟩ := pair_scan_sound h
    obtain ⟨rfl, rfl, hfne⟩ := distinct_field_pair_sound hf
    refine ⟨?_, ?_, hfne⟩
    · simpa using mem_sample_filter hσ hm1
    · simpa using mem_sample_filter hσ hm2
  rw [if_neg hq8] at h
  by_cases hq9 : q_type = "legal_form"
  · subst hq9
    rw [if_pos rfl] at h
    simp only [fairness_spec, reduceIte]
    obtain ⟨c1, hm1, c2, hm2, hne, hf⟩ := pair_scan_sound h
    obtain ⟨rfl, rfl, hfne⟩ := distinct_field_pair_sound hf
    refine ⟨?_, ?_, hfne⟩
    · simpa using mem_sample_filter hσ hm1
    · simpa using mem_sample_filter hσ hm2
  rw [if_neg hq9] at h
  by_cases hq10 : q_type = "vat"
  · subst hq10
    rw [if_pos rfl] at h
    simp only [fairness_spec, reduceIte]
    split at h
    next => exact absurd h (by simp)
    next c1 hc1 =>
      split at h
      next => exact absurd h (by simp)
      next c2 hc2 =>
        rw [Option.some_inj] at h
        simp only [Prod.mk.injEq] at h
        obtain ⟨rfl, rfl⟩ := h
        constructor
        · simpa using mem_sample_filter hσ (head?_some_mem hc1)
        · simpa using mem_sample_filter hσ (head?_some_mem hc2)
  rw [if_neg hq10] at h
  exact absurd h (by simp)

/-- C1 witness: on a two-company store with distinct CEOs the `ceo` selector
returns the pair, and the fairness predicate holds of it. -/
theorem C1_witness :
    get_companies_for_question "ceo" c1_store [] id = some (c1_ceo_a, c1_ceo_b) ∧
    fairness_spec "ceo" c1_ceo_a c1_ceo_b :=
  ⟨by decide,
    C1_selector_fairness "ceo" c1_store [] id (fun _ _ hc => hc)
      c1_ceo_a c1_ceo_b (by decide)⟩

/-! ### C8: shared numeric magnitude formatting -/

/-- C8: the revenue, profit and labor-taxes question texts format the
integer-truncated value through one shared magnitude rule — at least
1 000 000 renders as the value over 1e6 to one decimal plus " miljonit", at
least 1 000 renders as the value over 1e3 to zero decimals plus " tuhat",
anything else as the raw integer — and each text is a function of the
question type and the relevant field value alone. -/
theorem C8_formatting :
    (∀ (c : Company) (v : ℚ), c.revenue = some v →
      generate_question_text "revenue" c =
        some ("Millisel ettevõttel on käive " ++ format_magnitude (pyInt v) ++ " eurot?")) ∧
    (∀ (c : Company) (v : ℚ), c.profit = some v →
      generate_question_text "profit" c =
        some ("Millisel ettevõttel on kasum " ++ format_magnitude (pyInt v) ++ " eurot?")) ∧
    (∀ (c : Company) (v : ℚ), c.labor_taxes = some v →
      generate_question_text "labor_taxes" c =
        some ("Millisel ettevõttel on tööjõukulud " ++ format_magnitude (pyInt v) ++ " eurot?")) ∧
    (∀ n : Int, 1000000 ≤ n →
      format_magnitude n = fmt_one_decimal n 1000000 ++ " miljonit") ∧
    (∀ n : Int, n < 1000000 → 1000 ≤ n →
      format_magnitude n = fmt_zero_decimal n 1000 ++ " tuhat") ∧
    (∀ n : Int, n < 1000 → format_magnitude n = toString n) ∧
    (∀ c1 c2 : Company, c1.revenue = c2.revenue →
      generate_question_text "revenue" c1 = generate_question_text "revenue" c2) ∧
    (∀ c1 c2 : Company, c1.profit = c2.profit →
      generate_question_text "profit" c1 = generate_question_text "profit" c2) ∧
    (∀ c1 c2 : Company, c1.labor_taxes = c2.labor_taxes →
      generate_question_text "labor_taxes" c1 = generate_question_text "labor_taxes" c2) := by
  refine ⟨?_, ?_, ?_, ?_, ?_, ?_, ?_, ?_, ?_⟩
  · intro c v h
    simp only [generate_question_text, h, format_magnitude]
    rfl
  · intro c v h
    simp only [generate_question_text, h, format_magnitude]
    rfl
  · intro c v h
    simp only [generate_question_text, h, format_magnitude]
    rfl
  · intro n h
    unfold format_magnitude
    rw [if_pos h]
  · intro n h1 h2
    unfold format_magnitude
    rw [if_neg (not_le.mpr h1), if_pos h2]
  · intro n h
    unfold format_magnitude
    rw [if_neg (not_le.mpr (lt_trans h (by norm_num))),
      if_neg (not_le.mpr h)]
  · intro c1 c2 h
    simp only [generate_question_text, h]
    rfl
  · intro c1 c2 h
    simp only [generate_question_text, h]
    rfl
  · intro c1 c2 h
    simp only [generate_question_text, h]
    rfl

/-- C8 witness: the shared formatting equation at a concrete company with
revenue 3 000 000. -/
theorem C8_witness :
    c8_company.revenue = some 3000000 ∧
    generate_question_text "revenue" c8_company =
      some ("Millisel ettevõttel on käive " ++
        format_magnitude (pyInt 3000000) ++ " eurot?") :=
  ⟨rfl, C8_formatting.1 c8_company 3000000 rfl⟩

/-! ### C3: grading of answer submissions -/

/-- C3 is false as stated: with a pending question whose correct side is
`a`, submitting the value `x` — outside the two valid positions — is not
ignored; the POST block grades it as wrong and the score drops by one. -/
theorem C3_counterexample :
    ("x" ≠ "a" ∧ "x" ≠ "b") ∧
    (handle_answer_post c3_sess (some "x")).1.score = c3_sess.score - 1 ∧
    (handle_answer_post c3_sess (some "x")).1 ≠ c3_sess := by
  exact ⟨⟨by decide, by decide⟩, by decide, by decide⟩

/-- C3 amended: with a pending question, a submission equal to the correct
position adds exactly one point; any other non-empty submission — the other
valid position or a value outside both — subtracts exactly one point; a
missing or empty submission, or a submission with no pending question,
leaves the session unchanged. -/
theorem C3_answer_step (s : Session) (q : CurrentQuestion)
    (hq : s.current_question = some q) :
    (∀ a : String, a ≠ "" → a = q.correct_position →
      (handle_answer_post s (some a)).1.score = s.score + 1) ∧
    (∀ a : String, a ≠ "" → a ≠ q.correct_position →
      (handle_answer_post s (some a)).1.score = s.score - 1) ∧
    handle_answer_post s (some "") = (s, false) ∧
    handle_answer_post s none = (s, false) ∧
    (∀ s' : Session, s'.current_question = none →
      ∀ ans, handle_answer_post s' ans = (s', false)) := by
  refine ⟨?_, ?_, ?_, ?_, ?_⟩
  · intro a ha hcp
    subst hcp
    simp only [handle_answer_post, hq, if_pos ha, beq_self_eq_true, if_true]
    split <;> rfl
  · intro a ha hcp
    have hb : (a == q.correct_position) = false := beq_eq_false_iff_ne.mpr hcp
    simp only [handle_answer_post, hq, if_pos ha, hb, Bool.false_eq_true, if_false]
    split <;> rfl
  · simp [handle_answer_post, hq]
  · simp [handle_answer_post, hq]
  · intro s' h' ans
    cases ans <;> simp [handle_answer_post, h']

/-- C3 witness: the amended grading at a concrete session. -/
theorem C3_witness :
    c3_sess.current_question = some qa ∧
    (handle_answer_post c3_sess (some "a")).1.score = c3_sess.score + 1 ∧
    (handle_answer_post c3_sess (some "b")).1.score = c3_sess.score - 1 ∧
    handle_answer_post c3_sess none = (c3_sess, false) :=
  ⟨rfl,
    (C3_answer_step c3_sess qa rfl).1 "a" (by decide) rfl,
    (C3_answer_step c3_sess qa rfl).2.1 "b" (by decide) (by decide),
    (C3_answer_step c3_sess qa rfl).2.2.2.1⟩

/-! ### Behaviour of a plain GET of the view -/

theorem view_feedback_step (store : List Company) (σ : List Company → List Company)
    (τ : List String → List String) (pos_choice : Bool) (s : Session)
    (f : Feedback) (q : CurrentQuestion)
    (hf : s.feedback = some f) (hq : s.current_question = some q) :
    ∃ ctx : Ctx, index store σ τ pos_choice s get_request =
      ({ (if s.show_promo then { s with show_promo := false } else s) with
          feedback := none }, some ctx) ∧
      ctx.feedback = some f ∧ ctx.question = some q.text ∧
      ctx.show_promo = s.show_promo := by
  have e0 : index store σ τ pos_choice s get_request =
      index_rest store σ τ pos_choice s s.feedback
        { score := s.score, points_to_win := PROMO_THRESHOLD, feedback := s.feedback,
          game_over := false, question := none, company_a := none, company_b := none,
          show_promo := false, error := false } := rfl
  rw [e0, hf]
  simp only [index_rest, hq]
  rcases hfa : find_company store q.company_a_id with _ | ca <;>
    rcases hfb : find_company store q.company_b_id with _ | cb <;>
    cases hsp : s.show_promo <;>
    simp [hfa, hfb, hsp]

theorem view_generate_step (store : List Company) (σ : List Company → List Company)
    (τ : List String → List String) (pos_choice : Bool) (s : Session)
    (hf : s.feedback = none) :
    ∃ ctx : Ctx, index store σ τ pos_choice s get_request =
      ((generate_question store σ τ pos_choice s).1, some ctx) ∧
      ctx.feedback = none ∧ ctx.show_promo = false := by
  have e0 : index store σ τ pos_choice s get_request =
      index_rest store σ τ pos_choice s s.feedback
        { score := s.score, points_to_win := PROMO_THRESHOLD, feedback := s.feedback,
          game_over := false, question := none, company_a := none, company_b := none,
          show_promo := false, error := false } := rfl
  rw [e0, hf]
  simp only [index_rest]
  rcases hg : generate_question store σ τ pos_choice s with ⟨s1, out⟩
  rcases out with _ | ⟨⟨text, ca, cb⟩⟩ <;> simp [hf]

/-! ### C5: the feedback view is not idempotent -/

/-- C5 is false as stated: in the feedback-pending state the first GET
returns the feedback, but it clears the pending feedback, so the second GET
(without any continue) does not return the same payload — it carries no
feedback at all. -/
theorem C5_counterexample :
    ((index ([] : List Company) id id true c5_sess get_request).2.map
        (fun ctx => ctx.feedback)) = some (some c5_fb) ∧
    ((index ([] : List Company) id id true
        (index ([] : List Company) id id true c5_sess get_request).1
        get_request).2.map (fun ctx => ctx.feedback)) = some none := by
  exact ⟨by decide, by decide⟩

/-- C5 amended: while feedback is pending, one GET returns the pending
question and feedback and clears the feedback; a second GET without an
intervening continue does not repeat that payload (it carries no feedback),
and the one-shot promo signal is returned at most once across the two
calls, the second call never carrying it. -/
theorem C5_feedback_view (store : List Company) (σ : List Company → List Company)
    (τ : List String → List String) (pos_choice : Bool) (s : Session)
    (f : Feedback) (q : CurrentQuestion)
    (hf : s.feedback = some f) (hq : s.current_question = some q) :
    ((index store σ τ pos_choice s get_request).2.map
        (fun ctx => (ctx.feedback, ctx.question))) = some (some f, some q.text) ∧
    (index store σ τ pos_choice s get_request).1.feedback = none ∧
    ((index store σ τ pos_choice
        (index store σ τ pos_choice s get_request).1 get_request).2.map
        (fun ctx => ctx.feedback)) = some none ∧
    ((index store σ τ pos_choice
        (index store σ τ pos_choice s get_request).1 get_request).2.map
        (fun ctx => ctx.show_promo)) = some false := by
  obtain ⟨ctx1, he1, hc1f, hc1q, hc1p⟩ :=
    view_feedback_step store σ τ pos_choice s f q hf hq
  have hs1 : (index store σ τ pos_choice s get_request).1.feedback = none := by
    rw [he1]
  obtain ⟨ctx2, he2, hc2f, hc2p⟩ :=
    view_generate_step store σ τ pos_choice
      (index store σ τ pos_choice s get_request).1 hs1
  refine ⟨?_, hs1, ?_, ?_⟩
  · rw [he1]
    simp [hc1f, hc1q]
  · rw [he2]
    simp [hc2f]
  · rw [he2]
    simp [hc2p]

/-- C5 witness: the amended behaviour at a concrete feedback-pending
session over an empty store. -/
theorem C5_witness :
    c5_sess.feedback = some c5_fb ∧ c5_sess.current_question = some qa ∧
    ((index ([] : List Company) id id true c5_sess get_request).2.map
        (fun ctx => (ctx.feedback, ctx.question))) = some (some c5_fb, some qa.text) ∧
    ((index ([] : List Company) id id true
        (index ([] : List Company) id id true c5_sess get_request).1
        get_request).2.map (fun ctx => ctx.show_promo)) = some false :=
  ⟨rfl, rfl,
    (C5_feedback_view [] id id true c5_sess c5_fb qa rfl rfl).1,
    (C5_feedback_view [] id id true c5_sess c5_fb qa rfl rfl).2.2.2⟩

/-! ### C4: the promo reveal fires exactly once -/

theorem handle_answer_post_fields (s : Session) (q : CurrentQuestion) (a : String)
    (hq : s.current_question = some q) (ha : a ≠ "") :
    (handle_answer_post s (some a)).2 = true ∧
    (handle_answer_post s (some a)).1.score =
      (if a = q.correct_position then s.score + 1 else s.score - 1) ∧
    (handle_answer_post s (some a)).1.current_question = some q ∧
    ((handle_answer_post s (some a)).1.feedback).isSome = true ∧
    (handle_answer_post s (some a)).1.show_promo =
      (if PROMO_THRESHOLD ≤ (if a = q.correct_position then s.score + 1 else s.score - 1) ∧
          s.promo_shown = false then true else s.show_promo) ∧
    (handle_answer_post s (some a)).1.promo_shown =
      (if PROMO_THRESHOLD ≤ (if a = q.correct_position then s.score + 1 else s.score - 1) ∧
          s.promo_shown = false then true else s.promo_shown) := by
  by_cases hc : a = q.correct_position
  · subst hc
    by_cases htr : PROMO_THRESHOLD ≤ s.score + 1 ∧ s.promo_shown = false
    · simp [handle_answer_post, hq, ha, htr]
    · simp [handle_answer_post, hq, ha, htr]
  · have hbf : (a == q.correct_position) = false := beq_eq_false_iff_ne.mpr hc
    by_cases htr : PROMO_THRESHOLD ≤ s.score - 1 ∧ s.promo_shown = false
    · simp [handle_answer_post, hq, ha, hbf, hc, htr]
    · simp [handle_answer_post, hq, ha, hbf, hc, htr]

theorem answer_round_fields (store : List Company) (σ : List Company → List Company)
    (τ : List String → List String) (pos_choice : Bool) (s : Session)
    (q : CurrentQuestion) (a : String)
    (hq : s.current_question = some q) (ha : a ≠ "") (hsp : s.show_promo = false) :
    (answer_round store σ τ pos_choice s a).2 =
      (if PROMO_THRESHOLD ≤ (if a = q.correct_position then s.score + 1 else s.score - 1) ∧
          s.promo_shown = false then true else false) ∧
    (answer_round store σ τ pos_choice s a).1.score =
      (if a = q.correct_position then s.score + 1 else s.score - 1) ∧
    (answer_round store σ τ pos_choice s a).1.current_question = some q ∧
    (answer_round store σ τ pos_choice s a).1.show_promo = false ∧
    (answer_round store σ τ pos_choice s a).1.feedback = none ∧
    (answer_round store σ τ pos_choice s a).1.promo_shown =
      (if PROMO_THRESHOLD ≤ (if a = q.correct_position then s.score + 1 else s.score - 1) ∧
          s.promo_shown = false then true else s.promo_shown) := by
  obtain ⟨hp2, hscore, hcq, hfbs, hshow, hpromo⟩ := handle_answer_post_fields s q a hq ha
  rcases hhp : handle_answer_post s (some a) with ⟨s2, b⟩
  rw [hhp] at hp2 hscore hcq hfbs hshow hpromo
  simp only at hp2 hscore hcq hfbs hshow hpromo
  subst hp2
  have epost : index store σ τ pos_choice s
      { is_post := true, answer := some a, continue1 := false } = (s2, none) := by
    have e0 : index store σ τ pos_choice s
        { is_post := true, answer := some a, continue1 := false } =
        (match handle_answer_post s (some a) with
          | (s1, true) => (s1, none)
          | (s1, false) =>
            index_rest store σ τ pos_choice s1 s.feedback
              { score := s.score, points_to_win := PROMO_THRESHOLD,
                feedback := s.feedback, game_over := false, question := none,
                company_a := none, company_b := none,
                show_promo := false, error := false }) := rfl
    rw [e0, hhp]
  obtain ⟨fb, hfb⟩ := Option.isSome_iff_exists.mp hfbs
  obtain ⟨ctx, hidx, hcf, hcq2, hcp⟩ :=
    view_feedback_step store σ τ pos_choice s2 fb q hfb hcq
  have ear : answer_round store σ τ pos_choice s a =
      ({ (if s2.show_promo then { s2 with show_promo := false } else s2) with
          feedback := none }, ctx.show_promo) := by
    unfold answer_round
    rw [epost]
    simp only []
    rw [hidx]
  rw [ear]
  rw [hsp] at hshow
  rw [hcp, hshow]
  by_cases htr : PROMO_THRESHOLD ≤ (if a = q.correct_position then s.score + 1
      else s.score - 1) ∧ s.promo_shown = false
  · simp [htr, hscore, hcq, hpromo]
  · simp [htr, hscore, hcq, hpromo, hshow]

theorem forall_lt_succ_iff {Q : Nat → Prop} (n : Nat) :
    (∀ j < n + 1, Q j) ↔ Q 0 ∧ ∀ j < n, Q (j + 1) := by
  constructor
  · intro h
    exact ⟨h 0 (Nat.succ_pos n), fun j hj => h (j + 1) (Nat.succ_lt_succ hj)⟩
  · rintro ⟨h0, h⟩ j hj
    cases j with
    | zero => exact h0
    | succ k => exact h k (Nat.lt_of_succ_lt_succ hj)

theorem run_rounds_emits (store : List Company) (σ : List Company → List Company)
    (τ : List String → List String) (pos_choice : Bool) (q : CurrentQuestion) :
    ∀ (answers : List String) (s : Session) (i : Nat),
      s.current_question = some q → s.show_promo = false →
      (∀ a ∈ answers, a ≠ "") →
      ((run_rounds store σ τ pos_choice s answers).2.get? i = some true ↔
        ((∃ sc, (scores s.score q.correct_position answers).get? i = some sc ∧
            PROMO_THRESHOLD ≤ sc) ∧
         s.promo_shown = false ∧
         (∀ j < i, ∀ sc,
            (scores s.score q.correct_position answers).get? j = some sc →
            sc < PROMO_THRESHOLD))) := by
  intro answers
  induction answers with
  | nil =>
    intro s i _ _ _
    simp [run_rounds, scores]
  | cons a rest ih =>
    intro s i hq hsp hv
    have ha : a ≠ "" := hv a (List.mem_cons_self a rest)
    have hvrest : ∀ x ∈ rest, x ≠ "" := fun x hx => hv x (List.mem_cons_of_mem a hx)
    obtain ⟨hemit, hscore, hcq, hshow, hfb, hpromo⟩ :=
      answer_round_fields store σ τ pos_choice s q a hq ha hsp
    have hruns : (run_rounds store σ τ pos_choice s (a :: rest)).2 =
        (answer_round store σ τ pos_choice s a).2 ::
          (run_rounds store σ τ pos_choice
            (answer_round store σ τ pos_choice s a).1 rest).2 := rfl
    have hscores : scores s.score q.correct_position (a :: rest) =
        (if a = q.correct_position then s.score + 1 else s.score - 1) ::
          scores (if a = q.correct_position then s.score + 1 else s.score - 1)
            q.correct_position rest := rfl
    cases i with
    | zero =>
      rw [hruns, hscores]
      simp only [List.get?_cons_zero, Option.some_inj]
      rw [hemit]
      by_cases htr : PROMO_THRESHOLD ≤ (if a = q.correct_position then s.score + 1
          else s.score - 1) ∧ s.promo_shown = false
      · rw [if_pos htr]
        constructor
        · intro _
          exact ⟨⟨_, rfl, htr.1⟩, htr.2, fun j hj => absurd hj (Nat.not_lt_zero j)⟩
        · intro _
          rfl
      · rw [if_neg htr]
        constructor
        · intro hb
          exact absurd hb (by simp)
        · rintro ⟨⟨sc, hsc, h5⟩, hps, _⟩
          rw [← hsc] at h5
          exact absurd ⟨h5, hps⟩ htr
    | succ i' =>
      rw [hruns, hscores]
      simp only [List.get?_cons_succ]
      have ihap := ih (answer_round store σ τ pos_choice s a).1 i' hcq hshow hvrest
      rw [hscore] at ihap
      rw [ihap]
      have hps' : ((answer_round store σ τ pos_choice s a).1.promo_shown = false) ↔
          (s.promo_shown = false ∧
            (if a = q.correct_position then s.score + 1 else s.score - 1) <
              PROMO_THRESHOLD) := by
        rw [hpromo]
        by_cases h5 : PROMO_THRESHOLD ≤ (if a = q.correct_position then s.score + 1
            else s.score - 1) <;>
          by_cases hps : s.promo_shown = false <;>
          simp [h5, hps] <;> omega
      rw [hps']
      rw [forall_lt_succ_iff]
      simp only [List.get?_cons_zero, List.get?_cons_succ, Option.some_inj, forall_eq']
      tauto

/-- C4: starting from a promo-clean session with a pending question, over
any sequence of non-empty answer submissions the promo reveal is rendered
on exactly the round whose submission first brings the score to the
threshold while promo-shown is still false — no earlier round, no later
round — and `reset_game` clears the promo-shown flag again. -/
theorem C4_promo_once (store : List Company) (σ : List Company → List Company)
    (τ : List String → List String) (pos_choice : Bool) (s : Session)
    (q : CurrentQuestion) (answers : List String) (i : Nat)
    (hq : s.current_question = some q) (hsp : s.show_promo = false)
    (hv : ∀ a ∈ answers, a ≠ "") :
    ((run_rounds store σ τ pos_choice s answers).2.get? i = some true ↔
      ((∃ sc, (scores s.score q.correct_position answers).get? i = some sc ∧
          PROMO_THRESHOLD ≤ sc) ∧
       s.promo_shown = false ∧
       (∀ j < i, ∀ sc,
          (scores s.score q.correct_position answers).get? j = some sc →
          sc < PROMO_THRESHOLD))) ∧
    (reset_game s).promo_shown = false :=
  ⟨run_rounds_emits store σ τ pos_choice q answers s i hq hsp hv, rfl⟩

/-- C4 witness: five correct answers from score zero make the promo reveal
render exactly on the fifth round. -/
theorem C4_witness :
    c3_sess.current_question = some qa ∧ c3_sess.show_promo = false ∧
    (run_rounds [] id id true c3_sess five_correct).2.get? 4 = some true :=
  ⟨rfl, rfl,
    (C4_promo_once [] id id true c3_sess qa five_correct 4 rfl rfl (by decide)).1.mpr
      ⟨⟨5, by decide, by decide⟩, rfl, by
        have hs : scores c3_sess.score qa.correct_position five_correct =
            [1, 2, 3, 4, 5] := by decide
        intro j hj sc hsc
        rw [hs] at hsc
        interval_cases j <;> simp_all [PROMO_THRESHOLD] <;> omega⟩⟩

/-! ### C2: the entity cooldown excludes only half the stored window -/

theorem c2_np_one_five : numeric_pair Company.revenue MIN_DIFF_revenue c2_one c2_five =
    some (c2_one, c2_five) := by
  have h1 : c2_one.revenue = some 5000000 := rfl
  have h2 : c2_five.revenue = some 100000 := rfl
  unfold numeric_pair
  rw [show Company.revenue c2_one = some (5000000 : ℚ) from rfl,
    show Company.revenue c2_five = some (100000 : ℚ) from rfl]
  norm_num [MIN_DIFF_revenue]

theorem c2_np_five_six : numeric_pair Company.revenue MIN_DIFF_revenue c2_five c2_six =
    some (c2_six, c2_five) := by
  unfold numeric_pair
  rw [show Company.revenue c2_five = some (100000 : ℚ) from rfl,
    show Company.revenue c2_six = some (2900000 : ℚ) from rfl]
  norm_num [MIN_DIFF_revenue]

theorem c2_scan : pair_scan (numeric_pair Company.revenue MIN_DIFF_revenue) c2_store =
    some (c2_one, c2_five) := by
  have hne : c2_one.id ≠ c2_five.id := by decide
  simp only [c2_store, pair_scan, pair_scan_outer, pair_scan_inner,
    eq_self_iff_true, if_true, hne, if_false, c2_np_one_five]

theorem c2_sel : get_companies_for_question "revenue" c2_store [1, 2, 3, 4] id =
    some (c2_one, c2_five) := by
  have hbase : base_qs c2_store [1, 2, 3, 4] = c2_store := by decide
  have hfil : c2_store.filter (fun c => c.revenue.isSome) = c2_store := by decide
  have e0 : get_companies_for_question "revenue" c2_store [1, 2, 3, 4] id =
      pair_scan (numeric_pair Company.revenue MIN_DIFF_revenue)
        (id ((base_qs c2_store [1, 2, 3, 4]).filter (fun c => c.revenue.isSome))) := rfl
  rw [e0, hbase, hfil]
  exact c2_scan

theorem c2_gen : generate_question c2_store id id true c2_sess =
    ({ c2_sess with
        recent_types := ["employees", "profit", "labor_taxes", "county", "revenue"],
        recent_company_ids := [3, 4, 1, 5],
        current_question := some
          { qtype := "revenue",
            text := "Millisel ettevõttel on käive 5.0 miljonit eurot?",
            company_a_id := 1, company_b_id := 5, correct_position := "a",
            correct_company_id := 1 } },
      some ("Millisel ettevõttel on käive 5.0 miljonit eurot?", 1, 5)) := by
  have havail : get_available_question_types c2_sess.recent_types =
      ["revenue", "ceo", "activity", "legal_form", "vat"] := by decide
  have htry : gen_try_types c2_store id c2_sess.recent_company_ids
      (id ["revenue", "ceo", "activity", "legal_form", "vat"]) =
      some ("revenue", c2_one, c2_five) := by
    have e1 : gen_try_types c2_store id c2_sess.recent_company_ids
        (id ["revenue", "ceo", "activity", "legal_form", "vat"]) =
        (match get_companies_for_question "revenue" c2_store [1, 2, 3, 4] id with
          | some (correct_company, wrong_company) =>
            some ("revenue", correct_company, wrong_company)
          | none => gen_try_types c2_store id [1, 2, 3, 4]
              ["ceo", "activity", "legal_form", "vat"]) := rfl
    rw [e1, c2_sel]
  have htext : generate_question_text "revenue" c2_one =
      some "Millisel ettevõttel on käive 5.0 miljonit eurot?" := by decide
  unfold generate_question
  rw [havail, htry]
  clear htext
  decide

/-- C2 is violated by the code (a slip the spec and the code's own comment
contradict): `get_companies_for_question` excludes only the last
COMPANY_COOLDOWN (= 2) recent entity ids although the session retains the
last COMPANY_COOLDOWN × 2 (= 4) for that purpose, so with recent ids
[1, 2, 3, 4] a generation picks company 1 — among the stored last four —
even though the pool excluding all four still holds the fair pair (6, 5). -/
theorem C2_cooldown_violation :
    ((generate_question c2_store id id true c2_sess).1.current_question.map
      (fun cq => cq.correct_company_id)) = some 1 ∧
    ((generate_question c2_store id id true c2_sess).2.map
      (fun out => (out.2.1, out.2.2))) = some (1, 5) ∧
    (1 ∈ takeLast (COMPANY_COOLDOWN * 2) c2_sess.recent_company_ids) ∧
    ((get_complete_companies c2_store).filter
      (fun c => !(takeLast (COMPANY_COOLDOWN * 2) c2_sess.recent_company_ids).contains c.id)) =
      [c2_five, c2_six] ∧
    pair_scan (numeric_pair Company.revenue MIN_DIFF_revenue) [c2_five, c2_six] =
      some (c2_six, c2_five) := by
  refine ⟨?_, ?_, by decide, by decide, ?_⟩
  · rw [c2_gen]
    rfl
  · rw [c2_gen]
    rfl
  · have hne : c2_five.id ≠ c2_six.id := by decide
    simp only [pair_scan, pair_scan_outer, pair_scan_inner,
      eq_self_iff_true, if_true, hne, if_false, c2_np_five_six]
